import Mathlib

/-!
Verification of the Tank Mayhem entity-simulation core against its
natural-language specification.  The definitions below are shallow
embeddings of the TypeScript sources: `Tank` (entities/Tank.ts),
`Projectile` (entities/Projectile.ts), `Terrain` (world/Terrain.ts),
`WorldObject` (world/WorldObject.ts), the collision classifier
(core/CollisionManager.ts) and the entity registry
(core/EntityManager.ts).  JavaScript numbers are modelled as rationals
(`ℚ`); ammunition counts, which are only ever assigned non-negative
integers, as `ℕ`.
-/

/-- Weapon/health state of `Tank` (entities/Tank.ts).  The visual node and
the rigid body held by the class are not part of this record; the methods
embedded below (`fire`, `damage`, `heal`, `setHealth`, `isDead`, the reload
branch of `update`) read and write only these scalar fields. -/
structure Tank where
  health : ℚ
  maxHealth : ℚ
  ammo : ℕ
  maxAmmo : ℕ
  reloadTime : ℚ
  isReloading : Bool
  reloadTimer : ℚ
  damageDealt : ℚ
  deriving Repr, DecidableEq

/-- Field initializers of the `Tank` class: health 100, maxHealth 100,
ammo 5, maxAmmo 5, reloadTime 2, isReloading false, reloadTimer 0,
damageDealt 0. -/
def initTank : Tank :=
  { health := 100, maxHealth := 100, ammo := 5, maxAmmo := 5,
    reloadTime := 2, isReloading := false, reloadTimer := 0, damageDealt := 0 }

/-- `Tank.startReload` (private): sets `isReloading = true` and
`reloadTimer = 0`. -/
def Tank.startReload (t : Tank) : Tank :=
  { t with isReloading := true, reloadTimer := 0 }

/-- `Tank.fire(): boolean`.  Returns `false` without touching the state when
`ammo <= 0 || isReloading`; otherwise decrements `ammo`, starts a reload
when the decremented ammo is `<= 0`, and returns `true`. -/
def Tank.fire (t : Tank) : Tank × Bool :=
  if t.ammo ≤ 0 ∨ t.isReloading = true then (t, false)
  else
    let t1 : Tank := { t with ammo := t.ammo - 1 }
    let t2 : Tank := if t1.ammo ≤ 0 then t1.startReload else t1
    (t2, true)

/-- The reload branch of `Tank.update(delta)`: when reloading, advance
`reloadTimer` by `delta`; once it reaches `reloadTime`, stop reloading,
reset the timer and refill `ammo = maxAmmo`.  The block of `update` before
this one only copies the physics transform to the visual node and applies
the anti-sink force to the rigid body; it touches none of the fields of
this record. -/
def Tank.update (t : Tank) (delta : ℚ) : Tank :=
  if t.isReloading = true then
    let timer := t.reloadTimer + delta
    if timer ≥ t.reloadTime then
      { t with isReloading := false, reloadTimer := 0, ammo := t.maxAmmo }
    else
      { t with reloadTimer := timer }
  else t

/-- `Tank.damage(amount)`: `health = Math.max(0, health - amount)`. -/
def Tank.damage (t : Tank) (amount : ℚ) : Tank :=
  { t with health := max 0 (t.health - amount) }

/-- `Tank.heal(amount)`: `health = Math.min(maxHealth, health + amount)`. -/
def Tank.heal (t : Tank) (amount : ℚ) : Tank :=
  { t with health := min t.maxHealth (t.health + amount) }

/-- `Tank.setHealth(health)`:
`health = Math.max(0, Math.min(maxHealth, health))`. -/
def Tank.setHealth (t : Tank) (h : ℚ) : Tank :=
  { t with health := max 0 (min t.maxHealth h) }

/-- `Tank.isDead()`: `health <= 0`. -/
def Tank.isDead (t : Tank) : Bool :=
  t.health ≤ 0

/-- One of the three health-mutating operations of `Tank`. -/
inductive HealthOp where
  | damage (amount : ℚ)
  | heal (amount : ℚ)
  | setHealth (value : ℚ)
  deriving Repr

/-- Dispatch a `HealthOp` to the corresponding `Tank` method. -/
def applyHealthOp (t : Tank) (op : HealthOp) : Tank :=
  match op with
  | .damage a => t.damage a
  | .heal a => t.heal a
  | .setHealth v => t.setHealth v

/-- A damage or heal amount is used as intended when it is non-negative;
`setHealth` clamps on both sides, so any value is admissible there. -/
def HealthOp.nonnegAmount : HealthOp → Prop
  | .damage a => 0 ≤ a
  | .heal a => 0 ≤ a
  | .setHealth _ => True

/-- Lifecycle state of `Projectile` (entities/Projectile.ts): the age
counter and the fixed lifetime, together with the scalar payload stored by
the constructor.  The visual group and the rigid body are not part of this
record; `update` below mutates only `age` (its remaining statements copy
the body transform to the visual node). -/
structure Projectile where
  speed : ℚ
  damage : ℚ
  ownerId : String
  lifeTime : ℚ
  age : ℚ
  radius : ℚ
  deriving Repr

/-- `Projectile` constructor: stores speed, damage and ownerId and leaves
the field initializers `lifeTime = 5`, `age = 0`, `radius = 0.2`. -/
def mkProjectile (speed damage : ℚ) (ownerId : String) : Projectile :=
  { speed := speed, damage := damage, ownerId := ownerId,
    lifeTime := 5, age := 0, radius := 1/5 }

/-- `Projectile.update(delta)`: `age += delta` (the rest of the method
only syncs the visual transform with the physics body). -/
def Projectile.update (p : Projectile) (delta : ℚ) : Projectile :=
  { p with age := p.age + delta }

/-- `Projectile.isExpired()`: `age >= lifeTime`. -/
def Projectile.isExpired (p : Projectile) : Bool :=
  p.age ≥ p.lifeTime

/-- A cannon-es `Vec3` with rational components. -/
structure Vec3Q where
  x : ℚ
  y : ℚ
  z : ℚ
  deriving Repr, DecidableEq

/-- The `userData` payload the game attaches to physics bodies.  Tank
bodies set `{type, id}`, projectile bodies `{type, id, ownerId, damage}`,
the terrain body `{type}`; absent properties read as `undefined`, modelled
by `none`. -/
structure UserData where
  type : String
  uid : Option String := none
  ownerId : Option String := none
  damage : Option ℚ := none
  deriving Repr, DecidableEq

/-- The cannon-es collision shapes the game constructs.  `cylinder` stores
(radiusTop, radiusBottom, height, segments), `box` its half extents,
`heightfield` its data matrix and element size. -/
inductive CShape where
  | box (halfExtents : Vec3Q)
  | cylinder (radiusTop radiusBottom height : ℚ) (segments : ℕ)
  | sphere (radius : ℚ)
  | heightfield (data : List (List ℚ)) (elementSize : ℚ)
  deriving Repr

/-- A cannon-es `Body` as the game uses it: mass (0 = static), position,
a list of shapes with their local offsets, and the optional `userData`
role-tag payload (a plain `Body` has none until the game assigns it). -/
structure Body where
  mass : ℚ
  position : Vec3Q
  shapes : List (CShape × Vec3Q) := []
  userData : Option UserData := none
  deriving Repr

/-- The typed domain events published by `CollisionManager`
(core/CollisionManager.ts), with the payload fields each `emit` call
builds. -/
inductive GameEvent where
  | projectileHitTank (projectileId tankId projectileOwnerId : Option String)
      (damage : ℚ) (position : Vec3Q)
  | projectileHitObstacle (projectileId obstacleId : Option String) (position : Vec3Q)
  | projectileHitGround (projectileId : Option String) (position : Vec3Q)
  | tankHitObstacle (tankId obstacleId : Option String)
  | tankHitGround (tankId : Option String) (position : Vec3Q)
  deriving Repr, DecidableEq

/-- The event name used by the corresponding `emit` call. -/
def eventKind : GameEvent → String
  | .projectileHitTank _ _ _ _ _ => "projectileHitTank"
  | .projectileHitObstacle _ _ _ => "projectileHitObstacle"
  | .projectileHitGround _ _ => "projectileHitGround"
  | .tankHitObstacle _ _ => "tankHitObstacle"
  | .tankHitGround _ _ => "tankHitGround"

/-- `body.userData?.type === s`: `false` when `userData` is absent. -/
def hasType (b : Body) (s : String) : Bool :=
  match b.userData with
  | some u => u.type == s
  | none => false

/-- The role tag of a body: `userData?.type`. -/
def tagOf (b : Body) : Option String :=
  b.userData.map (fun u => u.type)

/-- The selector pattern of every handler block:
`bodyA.userData?.type === s ? bodyA : bodyB`. -/
def pick (a b : Body) (s : String) : Body :=
  if hasType a s then a else b

/-- `projectileBody.userData?.id` etc.: read an optional field through the
optional `userData`. -/
def uField (b : Body) (f : UserData → Option String) : Option String :=
  b.userData.bind f

/-- `projectileBody.userData?.damage || 20`: JavaScript `||` also replaces
a stored `0` by the default. -/
def damageOrDefault (b : Body) : ℚ :=
  match b.userData.bind (fun u => u.damage) with
  | some v => if v = 0 then 20 else v
  | none => 20

/-- One handler block of `setupCollisionEvents`: if the unordered role
pair of the two contacting bodies is `{s, t}`, select each participant by
its role and emit the event built by `mk`; otherwise emit nothing. -/
def blockG (s t : String) (mk : Body → Body → GameEvent) (a b : Body) :
    Option GameEvent :=
  if (hasType a s && hasType b t) || (hasType a t && hasType b s) then
    some (mk (pick a b s) (pick a b t))
  else
    none

/-- Payload of the `projectileHitTank` emission. -/
def mkProjectileHitTank (projectileBody tankBody : Body) : GameEvent :=
  .projectileHitTank (uField projectileBody (fun u => u.uid))
    (uField tankBody (fun u => u.uid))
    (uField projectileBody (fun u => u.ownerId))
    (damageOrDefault projectileBody) projectileBody.position

/-- Payload of the `projectileHitObstacle` emission. -/
def mkProjectileHitObstacle (projectileBody obstacleBody : Body) : GameEvent :=
  .projectileHitObstacle (uField projectileBody (fun u => u.uid))
    (uField obstacleBody (fun u => u.uid)) projectileBody.position

/-- Payload of the `projectileHitGround` emission (the ground participant
is not read). -/
def mkProjectileHitGround (projectileBody _groundBody : Body) : GameEvent :=
  .projectileHitGround (uField projectileBody (fun u => u.uid))
    projectileBody.position

/-- Payload of the `tankHitObstacle` emission. -/
def mkTankHitObstacle (tankBody obstacleBody : Body) : GameEvent :=
  .tankHitObstacle (uField tankBody (fun u => u.uid))
    (uField obstacleBody (fun u => u.uid))

/-- Payload of the `tankHitGround` emission (the selected ground body is
not read by the payload). -/
def mkTankHitGround (tankBody _groundBody : Body) : GameEvent :=
  .tankHitGround (uField tankBody (fun u => u.uid)) tankBody.position

/-- The `beginContact` handler of `CollisionManager.setupCollisionEvents`:
the five role-pair checks run in sequence and each matching one emits its
event.  The result lists the emissions in program order. -/
def classify (a b : Body) : List GameEvent :=
  (blockG "projectile" "tank" mkProjectileHitTank a b).toList ++
  (blockG "projectile" "obstacle" mkProjectileHitObstacle a b).toList ++
  (blockG "projectile" "ground" mkProjectileHitGround a b).toList ++
  (blockG "tank" "obstacle" mkTankHitObstacle a b).toList ++
  (blockG "tank" "ground" mkTankHitGround a b).toList

/-- The five known unordered role pairs of the specification, mapped to
the name of the event the classifier must emit for them; `none` for every
other tag combination.  This definition follows the specification text
(§4.4), to be compared with `classify`. -/
def specPairKind (ta tb : Option String) : Option String :=
  if (ta = some "projectile" ∧ tb = some "tank") ∨
      (ta = some "tank" ∧ tb = some "projectile") then
    some "projectileHitTank"
  else if (ta = some "projectile" ∧ tb = some "obstacle") ∨
      (ta = some "obstacle" ∧ tb = some "projectile") then
    some "projectileHitObstacle"
  else if (ta = some "projectile" ∧ tb = some "ground") ∨
      (ta = some "ground" ∧ tb = some "projectile") then
    some "projectileHitGround"
  else if (ta = some "tank" ∧ tb = some "obstacle") ∨
      (ta = some "obstacle" ∧ tb = some "tank") then
    some "tankHitObstacle"
  else if (ta = some "tank" ∧ tb = some "ground") ∨
      (ta = some "ground" ∧ tb = some "tank") then
    some "tankHitGround"
  else
    none

/-- The two obstacle-related event kinds. -/
def isObstacleEv (e : GameEvent) : Bool :=
  match e with
  | .projectileHitObstacle _ _ _ => true
  | .tankHitObstacle _ _ => true
  | _ => false

/-- `WorldObject.createPhysicsBody` (world/WorldObject.ts): a static body
whose shape depends on the type tag; the `building` case draws three
random dimensions, passed here as `rw`, `rd`, `rh` (each `Math.random()`
value).  The method sets `body.type = BODY_TYPES.STATIC` and
`body.id = Number(this.id)` but never assigns `userData`, so the role-tag
payload stays absent. -/
def mkWorldObjectBody (type : String) (position scale : Vec3Q)
    (rw rd rh : ℚ) : Body :=
  match type with
  | "tree" =>
    { mass := 0, position := position,
      shapes := [(CShape.cylinder (1/5 * scale.x) (3/10 * scale.x)
        (2 * scale.y) 8, ⟨0, 1 * scale.y, 0⟩)] }
  | "rock" =>
    { mass := 0, position := position,
      shapes := [(CShape.box ⟨4/5 * scale.x, 4/5 * scale.y, 4/5 * scale.z⟩,
        ⟨0, 0, 0⟩)] }
  | "building" =>
    let buildingWidth := 2 + rw * 2
    let buildingDepth := 2 + rd * 2
    let buildingHeight := 2 + rh * 3
    { mass := 0,
      position := ⟨position.x, position.y + buildingHeight/2 * scale.y,
        position.z⟩,
      shapes := [(CShape.box ⟨buildingWidth/2 * scale.x,
        buildingHeight/2 * scale.y, buildingDepth/2 * scale.z⟩, ⟨0, 0, 0⟩)] }
  | _ =>
    { mass := 0, position := position,
      shapes := [(CShape.box ⟨1/2 * scale.x, 1/2 * scale.y, 1/2 * scale.z⟩,
        ⟨0, 0, 0⟩)] }

/-- The multi-octave noise loop of `Terrain.generateHeightData`
(world/Terrain.ts): 6 octaves, frequency starting at 1 and doubling,
amplitude starting at 1 and halving.  The `simplex-noise` sampler is a
parameter `noise`; the library guarantees its values lie in `[-1, 1]`. -/
def octaveNoise (noise : ℚ → ℚ → ℚ) (x z : ℚ) : ℚ :=
  (List.range 6).foldl
    (fun acc k => acc + noise (x * 2 ^ k) (z * 2 ^ k) * (1 / 2 ^ k)) 0

/-- The per-sample computation of `Terrain.generateHeightData`:
`height = (octaveSum + 1) / 2`, scaled by `maxHeight`, then floor-clamped
to `maxHeight * 0.3`. -/
def sampleHeight (noise : ℚ → ℚ → ℚ) (maxHeight x z : ℚ) : ℚ :=
  let h := (octaveNoise noise x z + 1) / 2 * maxHeight
  if h < maxHeight * (3/10) then maxHeight * (3/10) else h

/-- `Terrain.generateHeightData`: the `(resolution+1) × (resolution+1)`
grid, sample `(i, j)` taken at normalized coordinates
`(i / resolution, j / resolution)`. -/
def generateHeightData (noise : ℚ → ℚ → ℚ) (resolution : ℕ)
    (maxHeight : ℚ) : ℕ → ℕ → ℚ :=
  fun i j =>
    sampleHeight noise maxHeight ((i : ℚ) / resolution) ((j : ℚ) / resolution)

/-- State of `Terrain` after `generate()`: the construction options and
the generated height grid (`heightData i j` is `heightData[i][j]` for
`i, j ≤ resolution`). -/
structure Terrain where
  size : ℚ
  resolution : ℕ
  maxHeight : ℚ
  heightData : ℕ → ℕ → ℚ

/-- `new Terrain(options)` followed by `generate()`, with the simplex
sampler made explicit. -/
def mkTerrain (noise : ℚ → ℚ → ℚ) (size : ℚ) (resolution : ℕ)
    (maxHeight : ℚ) : Terrain :=
  { size := size, resolution := resolution, maxHeight := maxHeight,
    heightData := generateHeightData noise resolution maxHeight }

/-- `Terrain.getHeightAt(x, z)`, as a method call returning the result
together with the receiver after the call (the method only reads, so the
returned terrain is the receiver unchanged):
indices `floor((coord + size/2) / size * resolution)`, clamped by
`Math.max(0, Math.min(resolution, i))`, then a `heightData` lookup. -/
def Terrain.getHeightAt (t : Terrain) (x z : ℚ) : ℚ × Terrain :=
  let i : ℤ := ⌊(x + t.size / 2) / t.size * t.resolution⌋
  let j : ℤ := ⌊(z + t.size / 2) / t.size * t.resolution⌋
  let clampedI : ℤ := max 0 (min (t.resolution : ℤ) i)
  let clampedJ : ℤ := max 0 (min (t.resolution : ℤ) j)
  (t.heightData clampedI.toNat clampedJ.toNat, t)

/-- The grid-index map described by the specification (§4.1): world
coordinate to `floor((coord + size/2) / size × resolution)`, clamped to
`[0, resolution]`. -/
def specGridIndex (size : ℚ) (resolution : ℕ) (c : ℚ) : ℕ :=
  (min (max 0 ⌊(c + size / 2) / size * resolution⌋) (resolution : ℤ)).toNat

/-- The data matrix `Terrain.createPhysicsBody` hands to the cannon-es
`Heightfield`: `data[i][j] = heightData[i][j]` for
`0 ≤ i < resolution`, `0 ≤ j < resolution` (both loops run strictly below
`resolution`). -/
def hfData (t : Terrain) : List (List ℚ) :=
  (List.range t.resolution).map
    (fun i => (List.range t.resolution).map (fun j => t.heightData i j))

/-- `Terrain.createPhysicsBody`: a static body at
`(-size/2, 0, -size/2)` carrying a `Heightfield` shape over `hfData` with
`elementSize = size / resolution`, tagged `userData = {type: 'ground'}`. -/
def Terrain.createPhysicsBody (t : Terrain) : Body :=
  { mass := 0,
    position := ⟨-t.size / 2, 0, -t.size / 2⟩,
    shapes := [(CShape.heightfield (hfData t) (t.size / t.resolution),
      ⟨0, 0, 0⟩)],
    userData := some { type := "ground" } }

/-- Number of vertices per axis of the visual surface:
`THREE.PlaneGeometry(size, size, resolution, resolution)` subdivides each
axis into `resolution` segments, giving `resolution + 1` vertices. -/
def visualVerticesPerAxis (t : Terrain) : ℕ :=
  t.resolution + 1

/-- The vertex-height assignment of `Terrain.createTerrainGeometry`:
buffer vertex `j` receives
`heightData[Math.floor(j / (resolution+1))][j % (resolution+1)]`. -/
def visualVertexHeight (t : Terrain) (j : ℕ) : ℚ :=
  t.heightData (j / (t.resolution + 1)) (j % (t.resolution + 1))

/-- Extent covered by the physics heightfield along each ground axis: a
cannon-es `Heightfield` with `n` data rows spans `(n - 1) * elementSize`
from the body origin. -/
def heightfieldSpan (t : Terrain) : ℚ :=
  (((hfData t).length : ℚ) - 1) * (t.size / t.resolution)

/-- Entity as the registry sees it (entities/Entity.ts): an id, an
optional visual node and an optional physics body, the latter two
identified by handles. -/
structure MEntity where
  id : String
  object3D : Option ℕ
  physicsBody : Option ℕ
  deriving Repr, DecidableEq

/-- State owned or mutated by `EntityManager` (core/EntityManager.ts): the
id-keyed entity map, the render scene children, and the physics world body
list. -/
structure EMState where
  entities : List (String × MEntity)
  scene : List ℕ
  worldBodies : List ℕ
  deriving Repr, DecidableEq

/-- `Map.delete(key)`: drops the binding when present, otherwise leaves
the map unchanged. -/
def mapDelete (m : List (String × MEntity)) (k : String) :
    List (String × MEntity) :=
  m.filter (fun p => !(p.1 == k))

/-- `Map.has(key)` over the association-list model. -/
def mapHas (m : List (String × MEntity)) (k : String) : Bool :=
  m.any (fun p => p.1 == k)

/-- `THREE.Scene.remove(node)` / `World.removeBody(body)`: both detach the
argument when it is attached and do nothing otherwise. -/
def listRemove (l : List ℕ) (n : ℕ) : List ℕ :=
  l.filter (fun m => !(m == n))

/-- `EntityManager.removeEntity(entity)`: deletes the entity's id from the
map, removes its visual node from the scene and its body from the world
when present on the entity, and then calls `entity.dispose()`
unconditionally.  The returned flag records whether `dispose` was
invoked. -/
def removeEntity (st : EMState) (e : MEntity) : EMState × Bool :=
  let entities := mapDelete st.entities e.id
  let scene :=
    match e.object3D with
    | some n => listRemove st.scene n
    | none => st.scene
  let worldBodies :=
    match e.physicsBody with
    | some b => listRemove st.worldBodies b
    | none => st.worldBodies
  ({ entities := entities, scene := scene, worldBodies := worldBodies }, true)

/-- Repeated calls to `Tank.fire`, keeping the state and dropping the
returned booleans. -/
def fireTimes (t : Tank) : ℕ → Tank
  | 0 => t
  | n + 1 => (Tank.fire (fireTimes t n)).1

/-- A noise sampler that returns the constant 1, an admissible value for
the `simplex-noise` contract (all outputs lie in `[-1, 1]`). -/
def constOneNoise : ℚ → ℚ → ℚ :=
  fun _ _ => 1

theorem clamp_swap (r i : ℤ) (hr : 0 ≤ r) :
    max 0 (min r i) = min (max 0 i) r := by
  omega

theorem foldl_update_age (ds : List ℚ) : ∀ p : Projectile,
    (ds.foldl Projectile.update p).age = p.age + ds.sum ∧
    (ds.foldl Projectile.update p).lifeTime = p.lifeTime := by
  induction ds with
  | nil => intro p; simp
  | cons d ds ih =>
    intro p
    simp only [List.foldl_cons, List.sum_cons]
    rcases ih (p.update d) with ⟨h1, h2⟩
    refine ⟨?_, h2⟩
    rw [h1]
    show p.age + d + ds.sum = p.age + (d + ds.sum)
    ring

theorem tank_update_partial (ds : List ℚ) : ∀ t : Tank,
    t.isReloading = true → (∀ d ∈ ds, 0 ≤ d) →
    t.reloadTimer + ds.sum < t.reloadTime →
    ds.foldl Tank.update t = { t with reloadTimer := t.reloadTimer + ds.sum } := by
  induction ds with
  | nil =>
    intro t _ _ _
    simp
  | cons d ds ih =>
    intro t h1 h2 h3
    simp only [List.foldl_cons, List.sum_cons] at h3 ⊢
    have hds : 0 ≤ ds.sum :=
      List.sum_nonneg (fun x hx => h2 x (List.mem_cons_of_mem _ hx))
    have hd : 0 ≤ d := h2 d (List.mem_cons_self d ds)
    have hlt : ¬(t.reloadTimer + d ≥ t.reloadTime) := by
      push_neg
      linarith
    have hstep : t.update d = { t with reloadTimer := t.reloadTimer + d } := by
      simp [Tank.update, h1, hlt]
    rw [hstep]
    have hrec := ih { t with reloadTimer := t.reloadTimer + d } h1
      (fun x hx => h2 x (List.mem_cons_of_mem _ hx)) (by show t.reloadTimer + d + ds.sum < t.reloadTime; linarith)
    rw [hrec]
    show ({ t with reloadTimer := t.reloadTimer + d + ds.sum } : Tank) = _
    rw [add_assoc]

/-- C1: the spec asserts every generated sample lies in
`[0.3·maxHeight, maxHeight]` (so in `[15, 50]` for maxHeight 50), but the
code feeds the 6-octave noise sum — whose range is `[-63/32, 63/32]` —
into the remap `(h+1)/2` that only normalizes `[-1, 1]`.  The floor clamp
holds unconditionally (first conjunct), yet with the admissible sampler
`constOneNoise` (second conjunct) the sample at grid node (0,0) of the
`size=1000, resolution=128, maxHeight=50` scenario evaluates to
`2375/32 = 74.21875 > 50`. -/
theorem c1_height_bound_overflow :
    (∀ (noise : ℚ → ℚ → ℚ) (resolution : ℕ) (maxHeight : ℚ) (i j : ℕ),
      maxHeight * (3/10) ≤ generateHeightData noise resolution maxHeight i j) ∧
    (∀ a b : ℚ, -1 ≤ constOneNoise a b ∧ constOneNoise a b ≤ 1) ∧
    generateHeightData constOneNoise 128 50 0 0 = 2375/32 ∧
    ((50 : ℚ) < 2375/32) := by
  refine ⟨?_, ?_, ?_, by norm_num⟩
  · intro noise res mh i j
    unfold generateHeightData sampleHeight
    dsimp only
    split
    · exact le_refl _
    · next h => exact le_of_not_lt h
  · intro a b
    constructor <;> norm_num [constOneNoise]
  · norm_num [generateHeightData, sampleHeight, octaveNoise, constOneNoise,
      List.range_succ]

/-- C2: the spec requires the physics height-field to consume the same
grid as the visual surface with no value or offset mismatch, but
`createPhysicsBody` copies only a `resolution × resolution` sub-matrix of
the `(resolution+1) × (resolution+1)` grid.  The values it does copy agree
with the grid (third conjunct), but the matrix has one row and one column
fewer than the visual vertex grid, so the collision surface spans
`(resolution-1)·(size/resolution) < size` world units while the visual
mesh spans `size`. -/
theorem c2_heightfield_grid_mismatch : ∀ t : Terrain,
    1 ≤ t.resolution → 0 < t.size →
    (hfData t).length = t.resolution ∧
    (∀ row ∈ hfData t, row.length = t.resolution) ∧
    (∀ i j, i < t.resolution → j < t.resolution →
      (((hfData t)[i]?.getD [])[j]?.getD 0) = t.heightData i j) ∧
    (hfData t).length ≠ visualVerticesPerAxis t ∧
    heightfieldSpan t < t.size := by
  intro t h1 h2
  have hlen : (hfData t).length = t.resolution := by simp [hfData]
  refine ⟨hlen, ?_, ?_, ?_, ?_⟩
  · intro row hrow
    simp only [hfData, List.mem_map, List.mem_range] at hrow
    obtain ⟨i, _, rfl⟩ := hrow
    simp
  · intro i j hi hj
    simp [hfData, List.getElem?_map, List.getElem?_range, hi, hj]
  · rw [hlen]
    simp only [visualVerticesPerAxis]
    omega
  · unfold heightfieldSpan
    rw [hlen]
    have hr0 : (0 : ℚ) < t.resolution := by
      have : 0 < t.resolution := lt_of_lt_of_le Nat.zero_lt_one h1
      exact_mod_cast this
    have key : ((t.resolution : ℚ) - 1) * (t.size / t.resolution) =
        t.size - t.size / t.resolution := by
      field_simp
      ring
    have hpos : 0 < t.size / t.resolution := div_pos h2 hr0
    rw [key]
    linarith

theorem c2_heightfield_grid_mismatch_witness :
    (hfData (mkTerrain constOneNoise 1000 128 50)).length = 128 ∧
    (hfData (mkTerrain constOneNoise 1000 128 50)).length ≠
      visualVerticesPerAxis (mkTerrain constOneNoise 1000 128 50) ∧
    heightfieldSpan (mkTerrain constOneNoise 1000 128 50) <
      (mkTerrain constOneNoise 1000 128 50).size :=
  ⟨(c2_heightfield_grid_mismatch _ (by norm_num [mkTerrain]) (by norm_num [mkTerrain])).1,
   (c2_heightfield_grid_mismatch _ (by norm_num [mkTerrain]) (by norm_num [mkTerrain])).2.2.2.1,
   (c2_heightfield_grid_mismatch _ (by norm_num [mkTerrain]) (by norm_num [mkTerrain])).2.2.2.2⟩

/-- C3: `getHeightAt` returns the grid value at the floor-mapped indices
clamped to `[0, resolution]` on each axis (the code clamps as
`max(0, min(resolution, i))`, the spec as a clamp to the interval — equal
because `resolution ≥ 0`), leaves the terrain unchanged, and a repeated
call on the returned state yields the same value. -/
theorem c3_getHeightAt_pure_spec : ∀ (t : Terrain) (x z : ℚ),
    (t.getHeightAt x z).1 =
      t.heightData (specGridIndex t.size t.resolution x)
        (specGridIndex t.size t.resolution z) ∧
    (t.getHeightAt x z).2 = t ∧
    ((t.getHeightAt x z).2.getHeightAt x z).1 = (t.getHeightAt x z).1 := by
  intro t x z
  refine ⟨?_, rfl, rfl⟩
  simp only [Terrain.getHeightAt, specGridIndex]
  rw [clamp_swap _ _ (Int.natCast_nonneg _), clamp_swap _ _ (Int.natCast_nonneg _)]

/-- C4: `fire` returns false and leaves the state untouched when ammo is
0 or a reload is running; otherwise it returns true, decrements ammo and
starts a reload exactly when the decremented ammo is 0.  From the
constructed tank (ammo 5), five consecutive calls return true, the fifth
one triggering the reload, and the sixth returns false.  Ammo is a natural
number that `fire` only decrements when strictly positive, so it never
goes negative over any fire sequence (final conjunct, stated in ℤ). -/
theorem c4_fire_contract :
    (∀ t : Tank, t.ammo = 0 ∨ t.isReloading = true → t.fire = (t, false)) ∧
    (∀ t : Tank, t.ammo ≠ 0 → t.isReloading = false →
      t.fire.2 = true ∧ t.fire.1.ammo = t.ammo - 1 ∧
      (t.fire.1.isReloading = true ↔ t.ammo = 1)) ∧
    ((Tank.fire (fireTimes initTank 0)).2 = true ∧
     (Tank.fire (fireTimes initTank 1)).2 = true ∧
     (Tank.fire (fireTimes initTank 2)).2 = true ∧
     (Tank.fire (fireTimes initTank 3)).2 = true ∧
     (Tank.fire (fireTimes initTank 4)).2 = true ∧
     (fireTimes initTank 4).isReloading = false ∧
     (fireTimes initTank 5).isReloading = true ∧
     (fireTimes initTank 5).ammo = 0 ∧
     (Tank.fire (fireTimes initTank 5)).2 = false) ∧
    (∀ (t : Tank) (n : ℕ), (0 : ℤ) ≤ ((fireTimes t n).ammo : ℤ)) := by
  refine ⟨?_, ?_, by decide, fun t n => Int.natCast_nonneg _⟩
  · intro t h
    rcases h with h | h <;> simp [Tank.fire, h]
  · intro t h1 h2
    have hc : ¬(t.ammo ≤ 0 ∨ t.isReloading = true) := by
      simp [Nat.le_zero, h1, h2]
    rw [Tank.fire, if_neg hc]
    dsimp only
    refine ⟨rfl, ?_, ?_⟩
    · by_cases hh : t.ammo - 1 ≤ 0
      · rw [if_pos hh]
        simp [Tank.startReload]
      · rw [if_neg hh]
    · by_cases hh : t.ammo - 1 ≤ 0
      · rw [if_pos hh]
        simp only [Tank.startReload, true_iff]
        omega
      · rw [if_neg hh]
        simp only [h2]
        constructor
        · intro hfalse
          cases hfalse
        · intro h5
          omega

theorem c4_fire_contract_witness :
    Tank.fire { initTank with isReloading := true } =
      ({ initTank with isReloading := true }, false) ∧
    (Tank.fire initTank).2 = true :=
  ⟨c4_fire_contract.1 _ (Or.inr rfl),
   (c4_fire_contract.2.1 initTank (by decide) rfl).1⟩

/-- C5: the claim quantifies over every sequence of `damage`, `heal` and
`setHealth` calls, but `damage` clamps only from below: a negative amount
raises health above `maxHealth`.  On the constructed tank
(health = maxHealth = 100), `damage(-1)` yields health 101 > 100. -/
theorem c5_counterexample :
    (initTank.damage (-1)).health = 101 ∧
    ¬((initTank.damage (-1)).health ≤ (initTank.damage (-1)).maxHealth) := by
  have h : (initTank.damage (-1)).health = 101 := by
    show max 0 ((100 : ℚ) - (-1)) = 101
    rw [max_eq_right] <;> norm_num
  refine ⟨h, ?_⟩
  rw [h]
  show ¬((101 : ℚ) ≤ 100)
  norm_num

theorem applyHealthOp_invariant (t : Tank) (op : HealthOp)
    (hop : op.nonnegAmount) (h0 : 0 ≤ t.health) (h1 : t.health ≤ t.maxHealth) :
    0 ≤ (applyHealthOp t op).health ∧
    (applyHealthOp t op).health ≤ t.maxHealth ∧
    (applyHealthOp t op).maxHealth = t.maxHealth := by
  have hm : 0 ≤ t.maxHealth := le_trans h0 h1
  cases op with
  | damage a =>
    simp only [HealthOp.nonnegAmount] at hop
    exact ⟨le_max_left 0 _, max_le hm (by linarith), rfl⟩
  | heal a =>
    simp only [HealthOp.nonnegAmount] at hop
    exact ⟨le_min hm (by linarith), min_le_left _ _, rfl⟩
  | setHealth v =>
    exact ⟨le_max_left 0 _, max_le hm (min_le_left _ _), rfl⟩

/-- C5 (amended): for every sequence of `damage`, `heal` and `setHealth`
calls whose damage and heal amounts are non-negative (`setHealth` takes
any value, being clamped on both sides), health stays within
`[0, maxHealth]` and `isDead()` is true iff health is 0. -/
theorem c5_health_invariant_amended : ∀ (ops : List HealthOp) (t : Tank),
    (∀ op ∈ ops, op.nonnegAmount) → 0 ≤ t.health → t.health ≤ t.maxHealth →
    0 ≤ (ops.foldl applyHealthOp t).health ∧
    (ops.foldl applyHealthOp t).health ≤ (ops.foldl applyHealthOp t).maxHealth ∧
    ((ops.foldl applyHealthOp t).isDead = true ↔
      (ops.foldl applyHealthOp t).health = 0) := by
  intro ops
  induction ops with
  | nil =>
    intro t _ h0 h1
    refine ⟨h0, h1, ?_⟩
    simp only [List.foldl_nil, Tank.isDead, decide_eq_true_eq]
    constructor
    · intro h
      exact le_antisymm h h0
    · intro h
      rw [h]
  | cons op ops ih =>
    intro t hops h0 h1
    simp only [List.foldl_cons]
    obtain ⟨g0, g1, g2⟩ := applyHealthOp_invariant t op
      (hops op (List.mem_cons_self op ops)) h0 h1
    exact ih (applyHealthOp t op)
      (fun x hx => hops x (List.mem_cons_of_mem _ hx)) g0 (g2 ▸ g1)

theorem c5_health_invariant_amended_witness :
    0 ≤ (([HealthOp.damage 30, HealthOp.heal 500,
        HealthOp.setHealth (-5)].foldl applyHealthOp initTank)).health ∧
    (([HealthOp.damage 30, HealthOp.heal 500,
        HealthOp.setHealth (-5)].foldl applyHealthOp initTank)).health ≤
      (([HealthOp.damage 30, HealthOp.heal 500,
        HealthOp.setHealth (-5)].foldl applyHealthOp initTank)).maxHealth ∧
    ((([HealthOp.damage 30, HealthOp.heal 500,
        HealthOp.setHealth (-5)].foldl applyHealthOp initTank)).isDead = true ↔
      (([HealthOp.damage 30, HealthOp.heal 500,
        HealthOp.setHealth (-5)].foldl applyHealthOp initTank)).health = 0) :=
  c5_health_invariant_amended _ initTank
    (by
      intro op hop
      simp only [List.mem_cons, List.not_mem_nil, or_false] at hop
      rcases hop with rfl | rfl | rfl <;> norm_num [HealthOp.nonnegAmount])
    (by norm_num [initTank]) (by norm_num [initTank])

/-- C6: once a tank enters the reloading state (reload timer 0), any
sequence of `update` calls with positive deltas summing to exactly
`reloadTime` completes the reload — ammo refilled to `maxAmmo`, the
reloading flag cleared, the timer reset — while after every proper prefix
of those calls the ammo is still untouched and the reload still
running. -/
theorem c6_reload_completion : ∀ (t : Tank) (ds : List ℚ),
    t.isReloading = true → t.reloadTimer = 0 → 0 < t.reloadTime →
    (∀ d ∈ ds, 0 < d) → ds.sum = t.reloadTime →
    ((ds.foldl Tank.update t).ammo = t.maxAmmo ∧
     (ds.foldl Tank.update t).isReloading = false ∧
     (ds.foldl Tank.update t).reloadTimer = 0) ∧
    (∀ p rest, ds = p ++ rest → rest ≠ [] →
      (p.foldl Tank.update t).ammo = t.ammo ∧
      (p.foldl Tank.update t).isReloading = true) := by
  intro t ds h1 h2 h3 h4 h5
  constructor
  · have hne : ds ≠ [] := by
      intro hnil
      rw [hnil] at h5
      simp at h5
      linarith [h5, h3]
    rcases List.eq_nil_or_concat ds with hnil | ⟨ys, d, hys⟩
    · exact absurd hnil hne
    · have hys' : ds = ys ++ [d] := by simpa using hys
      subst hys'
      have hd : 0 < d := h4 d (by simp)
      have hsum : ys.sum + d = t.reloadTime := by
        rw [← h5]
        simp
      have hpart : ys.foldl Tank.update t =
          { t with reloadTimer := t.reloadTimer + ys.sum } := by
        apply tank_update_partial ys t h1
        · intro x hx
          exact le_of_lt (h4 x (by simp [hx]))
        · rw [h2]
          linarith
      have hcond : t.reloadTime ≤ t.reloadTimer + ys.sum + d := by
        rw [h2]
        linarith
      have hupd : Tank.update { t with reloadTimer := t.reloadTimer + ys.sum } d =
          { t with ammo := t.maxAmmo, isReloading := false, reloadTimer := 0 } := by
        simp [Tank.update, h1, hcond, ge_iff_le]
      rw [List.foldl_append, hpart]
      simp only [List.foldl_cons, List.foldl_nil]
      rw [hupd]
      exact ⟨rfl, rfl, rfl⟩
  · intro p rest hsplit hrest
    have hsums : p.sum + rest.sum = t.reloadTime := by
      rw [← h5, hsplit]
      simp
    have hrpos : 0 < rest.sum := by
      apply List.sum_pos rest
      · intro x hx
        exact h4 x (by rw [hsplit]; exact List.mem_append_right _ hx)
      · exact hrest
    have hpart : p.foldl Tank.update t =
        { t with reloadTimer := t.reloadTimer + p.sum } := by
      apply tank_update_partial p t h1
      · intro x hx
        exact le_of_lt (h4 x (by rw [hsplit]; exact List.mem_append_left _ hx))
      · rw [h2]
        linarith
    rw [hpart]
    exact ⟨rfl, h1⟩

theorem c6_reload_completion_witness :
    (([1, 1/2, 1/2] : List ℚ).foldl Tank.update
        { initTank with ammo := 0, isReloading := true }).ammo =
      ({ initTank with ammo := 0, isReloading := true } : Tank).maxAmmo ∧
    (([1, 1/2, 1/2] : List ℚ).foldl Tank.update
        { initTank with ammo := 0, isReloading := true }).isReloading = false ∧
    (([1, 1/2, 1/2] : List ℚ).foldl Tank.update
        { initTank with ammo := 0, isReloading := true }).reloadTimer = 0 :=
  (c6_reload_completion { initTank with ammo := 0, isReloading := true }
    [1, 1/2, 1/2] rfl rfl (by norm_num [initTank])
    (by
      intro d hd
      simp only [List.mem_cons, List.not_mem_nil, or_false] at hd
      rcases hd with rfl | rfl | rfl <;> norm_num)
    (by norm_num [initTank])).1

/-- C7: starting from a freshly spawned projectile (age 0, lifetime 5),
after any sequence of `update` calls `isExpired()` is true exactly when
the accumulated deltas reach the 5-second lifetime; in particular it is
false at age 4.999 and true at age 5. -/
theorem c7_expiry_at_lifetime : ∀ (speed damage : ℚ) (ownerId : String)
    (ds : List ℚ),
    (ds.foldl Projectile.update (mkProjectile speed damage ownerId)).isExpired =
      decide (5 ≤ ds.sum) ∧
    (Projectile.update (mkProjectile speed damage ownerId)
      (4999/1000)).isExpired = false ∧
    (Projectile.update (Projectile.update (mkProjectile speed damage ownerId)
      (4999/1000)) (1/1000)).isExpired = true := by
  intro speed damage ownerId ds
  obtain ⟨hage, hlife⟩ := foldl_update_age ds (mkProjectile speed damage ownerId)
  refine ⟨?_, ?_, ?_⟩
  · rw [Projectile.isExpired, hage, hlife]
    show decide (0 + ds.sum ≥ 5) = decide (5 ≤ ds.sum)
    rw [zero_add]
  · simp only [Projectile.isExpired, Projectile.update, mkProjectile,
      decide_eq_false_iff_not]
    norm_num
  · simp only [Projectile.isExpired, Projectile.update, mkProjectile,
      decide_eq_true_eq]
    norm_num

theorem hasType_false_of_ne {b : Body} {s t : String} (hst : s ≠ t)
    (h : hasType b s = true) : hasType b t = false := by
  unfold hasType at h ⊢
  rcases hb : b.userData with _ | u
  · simp only [hb] at h
    cases h
  · simp only [hb, beq_iff_eq] at h
    simp only [hb, beq_eq_false_iff_ne]
    rw [h]
    exact hst

theorem pick_comm {a b : Body} {s t : String} (hst : s ≠ t)
    (h : (hasType a s && hasType b t || hasType a t && hasType b s) = true) :
    pick a b s = pick b a s ∧ pick a b t = pick b a t := by
  rw [Bool.or_eq_true, Bool.and_eq_true, Bool.and_eq_true] at h
  rcases h with ⟨h1, h2⟩ | ⟨h1, h2⟩
  · have h3 : hasType b s = false := hasType_false_of_ne (Ne.symm hst) h2
    have h4 : hasType a t = false := hasType_false_of_ne hst h1
    constructor <;> simp [pick, h1, h2, h3, h4]
  · have h3 : hasType a s = false := hasType_false_of_ne (Ne.symm hst) h1
    have h4 : hasType b t = false := hasType_false_of_ne hst h2
    constructor <;> simp [pick, h1, h2, h3, h4]

theorem blockG_comm (s t : String) (hst : s ≠ t)
    (mk : Body → Body → GameEvent) (a b : Body) :
    blockG s t mk a b = blockG s t mk b a := by
  unfold blockG
  by_cases hc : (hasType a s && hasType b t || hasType a t && hasType b s) = true
  · have hc2 : (hasType b s && hasType a t || hasType b t && hasType a s) = true := by
      rw [Bool.or_eq_true, Bool.and_eq_true, Bool.and_eq_true] at hc ⊢
      tauto
    obtain ⟨hps, hpt⟩ := pick_comm hst hc
    rw [if_pos hc, if_pos hc2, hps, hpt]
  · have hc2 : ¬((hasType b s && hasType a t || hasType b t && hasType a s) = true) := by
      rw [Bool.or_eq_true, Bool.and_eq_true, Bool.and_eq_true] at hc ⊢
      tauto
    rw [if_neg hc, if_neg hc2]

theorem map_eventKind_blockG (s t : String) (mk : Body → Body → GameEvent)
    (k : String) (hk : ∀ x y, eventKind (mk x y) = k) (a b : Body) :
    ((blockG s t mk a b).toList).map eventKind =
      if (hasType a s && hasType b t || hasType a t && hasType b s) = true
      then [k] else [] := by
  by_cases hc : (hasType a s && hasType b t || hasType a t && hasType b s) = true
  · rw [blockG, if_pos hc, if_pos hc]
    simp [hk]
  · rw [blockG, if_neg hc, if_neg hc]
    rfl

theorem hasType_eq_tag (b : Body) (s : String) :
    hasType b s = (tagOf b == some s) := by
  obtain ⟨m, p, sh, ud⟩ := b
  cases ud <;> rfl

theorem string_role_cases (s : String) :
    s = "projectile" ∨ s = "tank" ∨ s = "ground" ∨ s = "obstacle" ∨
    (s ≠ "projectile" ∧ s ≠ "tank" ∧ s ≠ "ground" ∧ s ≠ "obstacle") := by
  by_cases h1 : s = "projectile"
  · exact Or.inl h1
  by_cases h2 : s = "tank"
  · exact Or.inr (Or.inl h2)
  by_cases h3 : s = "ground"
  · exact Or.inr (Or.inr (Or.inl h3))
  by_cases h4 : s = "obstacle"
  · exact Or.inr (Or.inr (Or.inr (Or.inl h4)))
  exact Or.inr (Or.inr (Or.inr (Or.inr ⟨h1, h2, h3, h4⟩)))

theorem pairKind_concat (ta tb : Option String) :
    ((if ((ta == some "projectile") && (tb == some "tank") ||
          (ta == some "tank") && (tb == some "projectile")) = true
      then (["projectileHitTank"] : List String) else []) ++
     (if ((ta == some "projectile") && (tb == some "obstacle") ||
          (ta == some "obstacle") && (tb == some "projectile")) = true
      then ["projectileHitObstacle"] else []) ++
     (if ((ta == some "projectile") && (tb == some "ground") ||
          (ta == some "ground") && (tb == some "projectile")) = true
      then ["projectileHitGround"] else []) ++
     (if ((ta == some "tank") && (tb == some "obstacle") ||
          (ta == some "obstacle") && (tb == some "tank")) = true
      then ["tankHitObstacle"] else []) ++
     (if ((ta == some "tank") && (tb == some "ground") ||
          (ta == some "ground") && (tb == some "tank")) = true
      then ["tankHitGround"] else [])) = (specPairKind ta tb).toList := by
  rcases ta with _ | sa
  · rcases tb with _ | sb <;> simp [specPairKind]
  · rcases tb with _ | sb
    · simp [specPairKind]
    · rcases string_role_cases sa with rfl | rfl | rfl | rfl | ⟨n1, n2, n3, n4⟩ <;>
        rcases string_role_cases sb with rfl | rfl | rfl | rfl | ⟨m1, m2, m3, m4⟩ <;>
        simp_all [specPairKind]

/-- C8: the collision classifier is symmetric in the two contacting
bodies, and the list of emitted event kinds is exactly the singleton
prescribed by the specification's five unordered role pairs — so every
known pair emits exactly one typed event, and any pair with a missing or
unknown role tag emits nothing. -/
theorem c8_classifier_symmetric_complete : ∀ a b : Body,
    classify a b = classify b a ∧
    (classify a b).map eventKind = (specPairKind (tagOf a) (tagOf b)).toList := by
  intro a b
  constructor
  · unfold classify
    rw [blockG_comm "projectile" "tank" (by decide) mkProjectileHitTank a b,
        blockG_comm "projectile" "obstacle" (by decide) mkProjectileHitObstacle a b,
        blockG_comm "projectile" "ground" (by decide) mkProjectileHitGround a b,
        blockG_comm "tank" "obstacle" (by decide) mkTankHitObstacle a b,
        blockG_comm "tank" "ground" (by decide) mkTankHitGround a b]
  · unfold classify
    simp only [List.map_append]
    rw [map_eventKind_blockG "projectile" "tank" mkProjectileHitTank
          "projectileHitTank" (fun x y => rfl) a b,
        map_eventKind_blockG "projectile" "obstacle" mkProjectileHitObstacle
          "projectileHitObstacle" (fun x y => rfl) a b,
        map_eventKind_blockG "projectile" "ground" mkProjectileHitGround
          "projectileHitGround" (fun x y => rfl) a b,
        map_eventKind_blockG "tank" "obstacle" mkTankHitObstacle
          "tankHitObstacle" (fun x y => rfl) a b,
        map_eventKind_blockG "tank" "ground" mkTankHitGround
          "tankHitGround" (fun x y => rfl) a b]
    simp only [hasType_eq_tag]
    exact pairKind_concat (tagOf a) (tagOf b)

/-- C9: the claim says removing an unregistered entity is a complete
no-op with disposal not invoked, but `removeEntity` calls
`entity.dispose()` unconditionally: on an empty registry the dispose flag
of the call is `true`, contradicting the claim at this input. -/
theorem c9_counterexample :
    mapHas (EMState.mk [] [] []).entities "e1" = false ∧
    (removeEntity ⟨[], [], []⟩ ⟨"e1", some 7, some 3⟩).2 = true ∧
    ¬((removeEntity ⟨[], [], []⟩ ⟨"e1", some 7, some 3⟩).2 = false) := by
  refine ⟨rfl, rfl, ?_⟩
  intro h
  cases h

/-- C9 (amended): removing an entity that is not registered leaves the
registry map unchanged, and leaves the render scene and the physics body
list unchanged provided the entity's visual node and body are not attached
to them — but the entity's disposal is invoked unconditionally. -/
theorem c9_remove_unregistered_amended : ∀ (st : EMState) (e : MEntity),
    mapHas st.entities e.id = false →
    ((removeEntity st e).1.entities = st.entities ∧
     ((∀ n, e.object3D = some n → n ∉ st.scene) →
       (removeEntity st e).1.scene = st.scene) ∧
     ((∀ n, e.physicsBody = some n → n ∉ st.worldBodies) →
       (removeEntity st e).1.worldBodies = st.worldBodies) ∧
     (removeEntity st e).2 = true) := by
  intro st e hmem
  unfold mapHas at hmem
  refine ⟨?_, ?_, ?_, rfl⟩
  · show mapDelete st.entities e.id = st.entities
    unfold mapDelete
    apply List.filter_eq_self.mpr
    intro p hp
    rw [Bool.not_eq_true']
    by_contra hne
    rw [Bool.not_eq_false] at hne
    have hany : st.entities.any (fun q => q.1 == e.id) = true :=
      List.any_eq_true.mpr ⟨p, hp, hne⟩
    rw [hany] at hmem
    cases hmem
  · intro hnot
    rcases ho : e.object3D with _ | n
    · simp [removeEntity, ho]
    · simp only [removeEntity, ho]
      apply List.filter_eq_self.mpr
      intro m hm
      rw [Bool.not_eq_true', beq_eq_false_iff_ne]
      intro hmn
      exact (hnot n ho) (hmn ▸ hm)
  · intro hnot
    rcases ho : e.physicsBody with _ | n
    · simp [removeEntity, ho]
    · simp only [removeEntity, ho]
      apply List.filter_eq_self.mpr
      intro m hm
      rw [Bool.not_eq_true', beq_eq_false_iff_ne]
      intro hmn
      exact (hnot n ho) (hmn ▸ hm)

theorem c9_remove_unregistered_amended_witness :
    (removeEntity ⟨[("a", ⟨"a", none, none⟩)], [5], [9]⟩
      ⟨"b", some 7, some 3⟩).1.entities = [("a", ⟨"a", none, none⟩)] ∧
    (removeEntity ⟨[("a", ⟨"a", none, none⟩)], [5], [9]⟩
      ⟨"b", some 7, some 3⟩).1.scene = [5] ∧
    (removeEntity ⟨[("a", ⟨"a", none, none⟩)], [5], [9]⟩
      ⟨"b", some 7, some 3⟩).2 = true := by
  have h := c9_remove_unregistered_amended
    ⟨[("a", ⟨"a", none, none⟩)], [5], [9]⟩ ⟨"b", some 7, some 3⟩ (by decide)
  refine ⟨h.1, h.2.1 ?_, h.2.2.2⟩
  intro n hn
  injection hn with h7
  subst h7
  decide

theorem mkWorldObjectBody_userData (type : String) (position scale : Vec3Q)
    (r1 r2 r3 : ℚ) :
    (mkWorldObjectBody type position scale r1 r2 r3).userData = none := by
  unfold mkWorldObjectBody
  split <;> rfl

theorem classify_nil_left {a : Body} (h : a.userData = none) (b : Body) :
    classify a b = [] := by
  have hT : ∀ s, hasType a s = false := by
    intro s
    unfold hasType
    rw [h]
  unfold classify blockG
  simp [hT]

theorem classify_nil_right {a : Body} (h : a.userData = none) (b : Body) :
    classify b a = [] := by
  have hT : ∀ s, hasType a s = false := by
    intro s
    unfold hasType
    rw [h]
  unfold classify blockG
  simp [hT]

/-- C10: `WorldObject.createPhysicsBody` never assigns `userData`, so a
world-object body has no role tag; consequently the classifier emits no
`projectileHitObstacle` or `tankHitObstacle` event (indeed, no event at
all) for any contact involving such a body, in either contact order. -/
theorem c10_worldobject_no_obstacle_events :
    ∀ (type : String) (position scale : Vec3Q) (r1 r2 r3 : ℚ) (other : Body),
    (classify (mkWorldObjectBody type position scale r1 r2 r3) other).filter
      isObstacleEv = [] ∧
    (classify other (mkWorldObjectBody type position scale r1 r2 r3)).filter
      isObstacleEv = [] ∧
    (mkWorldObjectBody type position scale r1 r2 r3).userData = none := by
  intro type position scale r1 r2 r3 other
  have h := mkWorldObjectBody_userData type position scale r1 r2 r3
  refine ⟨?_, ?_, h⟩
  · rw [classify_nil_left h other]
    rfl
  · rw [classify_nil_right h other]
    rfl
